import Mathlib

/-!
Shallow embedding of `plover/oslayer/winkeyboardcontrol.py`.

The module has two halves:

* `KeyboardCapture` — a keyboard hook that tracks the modifier state,
  forwards plain printable key events to `key_down`/`key_up` callbacks and
  decides, via the suppression flag, whether the OS sees the keystroke.
* `KeyboardEmulation` — key injection: `send_string`,
  `send_backspaces` and `send_key_combination`, built on `_key_down`,
  `_key_up`, `_key_press` and `_key_unicode`.

Injected operations are modelled by the `KeyOp` type: `press c` is a
`SendInput` key-down of virtual-key code `c`, `release c` the matching
key-up (flag `KEYEVENTF_KEYUP`), and `unicode c` a `KEYEVENTF_UNICODE`
injection of code point `c`.

`KEYNAME_TO_KEYCODE` and `LITERALS` are `collections.defaultdict`s in the
source: indexing a `defaultdict` with a missing key INSERTS that key with
the default value (`[]` resp. the empty string).  The inserted keys are
modelled
explicitly by an `extra : List String` component threaded through every
operation: the runtime dictionary is the base association list plus
`extra` (every key in `extra` maps to `[]`).  Membership tests (`in`) do
not insert and are modelled by lookups only.  `LITERALS` is only ever
indexed after a membership test, so it needs no such component.
-/

namespace WinKeyboardControl

/-- A keyboard input injected via `SendInput`. -/
inductive KeyOp where
  | press (code : Nat)
  | release (code : Nat)
  | unicode (code : Nat)
deriving DecidableEq, Repr
def KEY_TO_ASCII : List (Nat × Char) := [
  (41, Char.ofNat 96),
  (2, '1'),
  (3, '2'),
  (4, '3'),
  (5, '4'),
  (6, '5'),
  (7, '6'),
  (8, '7'),
  (9, '8'),
  (10, '9'),
  (11, '0'),
  (12, '-'),
  (13, '='),
  (16, 'q'),
  (17, 'w'),
  (18, 'e'),
  (19, 'r'),
  (20, 't'),
  (21, 'y'),
  (22, 'u'),
  (23, 'i'),
  (24, 'o'),
  (25, 'p'),
  (26, '['),
  (27, ']'),
  (43, Char.ofNat 92),
  (30, 'a'),
  (31, 's'),
  (32, 'd'),
  (33, 'f'),
  (34, 'g'),
  (35, 'h'),
  (36, 'j'),
  (37, 'k'),
  (38, 'l'),
  (39, ';'),
  (40, Char.ofNat 39),
  (44, 'z'),
  (45, 'x'),
  (46, 'c'),
  (47, 'v'),
  (48, 'b'),
  (49, 'n'),
  (50, 'm'),
  (51, ','),
  (52, '.'),
  (53, '/'),
  (57, ' ')]

def KEYNAME_TO_KEYCODE : List (String × List Nat) := [
  ("Vol_Mute", [0xAD]),
  ("Vol_Down", [0xAE]),
  ("Vol_Up", [0xAF]),
  ("Media_Next", [0xB0]),
  ("Media_Prev", [0xB1]),
  ("Media_Stop", [0xB2]),
  ("Media_Play_Pause", [0xB3]),
  ("Sleep", [0x5F]),
  ("0", [0x30]),
  ("1", [0x31]),
  ("2", [0x32]),
  ("3", [0x33]),
  ("4", [0x34]),
  ("5", [0x35]),
  ("6", [0x36]),
  ("7", [0x37]),
  ("8", [0x38]),
  ("9", [0x39]),
  ("a", [0x41]),
  ("b", [0x42]),
  ("c", [0x43]),
  ("d", [0x44]),
  ("e", [0x45]),
  ("f", [0x46]),
  ("g", [0x47]),
  ("h", [0x48]),
  ("i", [0x49]),
  ("j", [0x4A]),
  ("k", [0x4B]),
  ("l", [0x4C]),
  ("m", [0x4D]),
  ("n", [0x4E]),
  ("o", [0x4F]),
  ("p", [0x50]),
  ("q", [0x51]),
  ("r", [0x52]),
  ("s", [0x53]),
  ("t", [0x54]),
  ("u", [0x55]),
  ("v", [0x56]),
  ("w", [0x57]),
  ("x", [0x58]),
  ("y", [0x59]),
  ("z", [0x5A]),
  ("A", [0xA1, 0x41]),
  ("B", [0xA1, 0x42]),
  ("C", [0xA1, 0x43]),
  ("D", [0xA1, 0x44]),
  ("E", [0xA1, 0x45]),
  ("F", [0xA1, 0x46]),
  ("G", [0xA1, 0x47]),
  ("H", [0xA1, 0x48]),
  ("I", [0xA1, 0x49]),
  ("J", [0xA1, 0x4A]),
  ("K", [0xA1, 0x4B]),
  ("L", [0xA1, 0x4C]),
  ("M", [0xA1, 0x4D]),
  ("N", [0xA1, 0x4E]),
  ("O", [0xA1, 0x4F]),
  ("P", [0xA1, 0x50]),
  ("Q", [0xA1, 0x51]),
  ("R", [0xA1, 0x52]),
  ("S", [0xA1, 0x53]),
  ("T", [0xA1, 0x54]),
  ("U", [0xA1, 0x55]),
  ("V", [0xA1, 0x56]),
  ("W", [0xA1, 0x57]),
  ("X", [0xA1, 0x58]),
  ("Y", [0xA1, 0x59]),
  ("Z", [0xA1, 0x5A]),
  ("Alt_L", [0x12]),
  ("Alt_R", [0x12]),
  ("Control_L", [0xA2]),
  ("Control_R", [0xA3]),
  ("Hyper_L", []),
  ("Hyper_R", []),
  ("Meta_L", []),
  ("Meta_R", []),
  ("Shift_L", [0xA0]),
  ("Shift_R", [0xA1]),
  ("Super_L", [0x5B]),
  ("Super_R", [0x5C]),
  ("Caps_Lock", [0x14]),
  ("Num_Lock", [0x90]),
  ("Scroll_Lock", [0x91]),
  ("Shift_Lock", []),
  ("Return", [0x0D]),
  ("Tab", [0x09]),
  ("BackSpace", [0x08]),
  ("Delete", [0x2E]),
  ("Escape", [0x1B]),
  ("Break", [0x03]),
  ("Insert", [0x2D]),
  ("Pause", [0x13]),
  ("Print", [0x2C]),
  ("Sys_Req", []),
  ("Up", [0x26]),
  ("Down", [0x28]),
  ("Left", [0x25]),
  ("Right", [0x27]),
  ("Page_Up", [0x21]),
  ("Page_Down", [0x22]),
  ("Home", [0x24]),
  ("End", [0x23]),
  ("F1", [0x70]),
  ("F2", [0x71]),
  ("F3", [0x72]),
  ("F4", [0x73]),
  ("F5", [0x74]),
  ("F6", [0x75]),
  ("F7", [0x76]),
  ("F8", [0x77]),
  ("F9", [0x78]),
  ("F10", [0x79]),
  ("F11", [0x7A]),
  ("F12", [0x7B]),
  ("F13", [0x7C]),
  ("F14", [0x7D]),
  ("F15", [0x7E]),
  ("F16", [0x7F]),
  ("F17", [0x80]),
  ("F18", [0x81]),
  ("F19", [0x82]),
  ("F20", [0x83]),
  ("F21", [0x84]),
  ("F22", [0x85]),
  ("F23", [0x86]),
  ("F24", [0x87]),
  ("F25", []),
  ("F26", []),
  ("F27", []),
  ("F28", []),
  ("F29", []),
  ("F30", []),
  ("F31", []),
  ("F32", []),
  ("F33", []),
  ("F34", []),
  ("F35", []),
  ("L1", []),
  ("L2", []),
  ("L3", []),
  ("L4", []),
  ("L5", []),
  ("L6", []),
  ("L7", []),
  ("L8", []),
  ("L9", []),
  ("L10", []),
  ("R1", []),
  ("R2", []),
  ("R3", []),
  ("R4", []),
  ("R5", []),
  ("R6", []),
  ("R7", []),
  ("R8", []),
  ("R9", []),
  ("R10", []),
  ("R11", []),
  ("R12", []),
  ("R13", []),
  ("R14", []),
  ("R15", []),
  ("KP_0", [0x60]),
  ("KP_1", [0x61]),
  ("KP_2", [0x62]),
  ("KP_3", [0x63]),
  ("KP_4", [0x64]),
  ("KP_5", [0x65]),
  ("KP_6", [0x66]),
  ("KP_7", [0x67]),
  ("KP_8", [0x68]),
  ("KP_9", [0x69]),
  ("KP_Add", [0xA1, 0xBB]),
  ("KP_Begin", []),
  ("KP_Decimal", [0x6E]),
  ("KP_Delete", [0x2E]),
  ("KP_Divide", [0x6F]),
  ("KP_Down", []),
  ("KP_End", []),
  ("KP_Enter", [0x0D]),
  ("KP_Equal", [0xBB]),
  ("KP_F1", []),
  ("KP_F2", []),
  ("KP_F3", []),
  ("KP_F4", []),
  ("KP_Home", []),
  ("KP_Insert", []),
  ("KP_Left", []),
  ("KP_Multiply", [0x6A]),
  ("KP_Next", []),
  ("KP_Page_Down", []),
  ("KP_Page_Up", []),
  ("KP_Prior", []),
  ("KP_Right", []),
  ("KP_Separator", []),
  ("KP_Space", []),
  ("KP_Subtract", [0x6D]),
  ("KP_Tab", []),
  ("KP_Up", []),
  ("ampersand", [0xA1, 0x37]),
  ("apostrophe", [0xDE]),
  ("asciitilde", [0xA1, 0xC0]),
  ("asterisk", [0xA1, 0x38]),
  ("at", [0xA1, 0x32]),
  ("backslash", [0xDC]),
  ("braceleft", [0xA1, 0xDB]),
  ("braceright", [0xA1, 0xDD]),
  ("bracketleft", [0xDB]),
  ("bracketright", [0xDD]),
  ("colon", [0xA1, 0xBA]),
  ("comma", [0xBC]),
  ("division", []),
  ("dollar", [0xA1, 0x34]),
  ("equal", [0xBB]),
  ("exclam", [0xA1, 0x31]),
  ("greater", [0xA1, 0xBE]),
  ("hyphen", [0xBD]),
  ("less", [0xA1, 0xBC]),
  ("minus", [0xBD]),
  ("multiply", [0x6A]),
  ("numbersign", [0xA1, 0x33]),
  ("parenleft", [0xA1, 0x39]),
  ("parenright", [0xA1, 0x30]),
  ("percent", [0xA1, 0x35]),
  ("period", [0xBE]),
  ("plus", [0xA1, 0xBB]),
  ("question", [0xA1, 0xBF]),
  ("quotedbl", [0xA1, 0xDE]),
  ("quoteleft", []),
  ("quoteright", []),
  ("semicolon", [0xBA]),
  ("slash", [0xBF]),
  ("space", [0x20]),
  ("underscore", [0xA1, 0xBD]),
  ("grave", [0xC0]),
  ("asciicircum", [0xA1, 0x36]),
  ("bar", [0xA1, 0xDC]),
  ("Help", [0x2F]),
  ("Mode_switch", [0x1F]),
  ("Menu", [0x5D]),
  ("Begin", []),
  ("Cancel", [0x03]),
  ("Clear", [0x0C]),
  ("Execute", [0x2B]),
  ("Find", []),
  ("Linefeed", []),
  ("Multi_key", []),
  ("MultipleCandidate", []),
  ("Next", [0x22]),
  ("PreviousCandidate", []),
  ("Prior", [0x21]),
  ("Redo", []),
  ("Select", [0x29]),
  ("SingleCandidate", []),
  ("Undo", []),
  ("Eisu_Shift", []),
  ("Eisu_toggle", []),
  ("Hankaku", []),
  ("Henkan", []),
  ("Henkan_Mode", []),
  ("Hiragana", []),
  ("Hiragana_Katakana", []),
  ("Kana_Lock", []),
  ("Kana_Shift", []),
  ("Kanji", []),
  ("Katakana", []),
  ("Mae_Koho", []),
  ("Massyo", []),
  ("Muhenkan", []),
  ("Romaji", []),
  ("Touroku", []),
  ("Zen_Koho", []),
  ("Zenkaku", []),
  ("Zenkaku_Hankaku", [])]

def KEYNAME_TO_UNICODE : List (String × Nat) := [
  ("plusminus", 177),
  ("aring", 229),
  ("yen", 165),
  ("ograve", 242),
  ("adiaeresis", 228),
  ("Ntilde", 209),
  ("questiondown", 191),
  ("Yacute", 221),
  ("Atilde", 195),
  ("ccedilla", 231),
  ("copyright", 169),
  ("ntilde", 241),
  ("otilde", 245),
  ("masculine", 9794),
  ("Eacute", 201),
  ("ocircumflex", 244),
  ("guillemotright", 187),
  ("ecircumflex", 234),
  ("uacute", 250),
  ("cedilla", 184),
  ("oslash", 248),
  ("acute", 237),
  ("ssharp", 223),
  ("Igrave", 204),
  ("twosuperior", 178),
  ("udiaeresis", 252),
  ("notsign", 172),
  ("exclamdown", 161),
  ("ordfeminine", 9792),
  ("Otilde", 213),
  ("agrave", 224),
  ("ection", 167),
  ("egrave", 232),
  ("macron", 175),
  ("Icircumflex", 206),
  ("diaeresis", 168),
  ("ucircumflex", 251),
  ("atilde", 227),
  ("Acircumflex", 194),
  ("degree", 176),
  ("THORN", 222),
  ("acircumflex", 226),
  ("Aring", 197),
  ("Ooblique", 216),
  ("Ugrave", 217),
  ("Agrave", 192),
  ("ydiaeresis", 255),
  ("threesuperior", 179),
  ("Egrave", 200),
  ("Idiaeresis", 207),
  ("igrave", 236),
  ("ETH", 208),
  ("Ecircumflex", 202),
  ("Aacute", 193),
  ("cent", 162),
  ("registered", 174),
  ("Oacute", 211),
  ("Adiaeresis", 228),
  ("guillemotleft", 171),
  ("ediaeresis", 235),
  ("Ograve", 210),
  ("mu", 956),
  ("paragraph", 182),
  ("Ccedilla", 199),
  ("thorn", 254),
  ("threequarters", 190),
  ("ae", 230),
  ("brokenbar", 166),
  ("nobreakspace", 32),
  ("currency", 164),
  ("ugrave", 249),
  ("Ucircumflex", 219),
  ("odiaeresis", 246),
  ("periodcentered", 183),
  ("Uacute", 218),
  ("idiaeresis", 239),
  ("yacute", 253),
  ("sterling", 163),
  ("AE", 198),
  ("Ediaeresis", 203),
  ("onequarter", 188),
  ("onehalf", 189),
  ("Thorn", 222),
  ("aacute", 225),
  ("icircumflex", 238),
  ("Udiaeresis", 220),
  ("eacute", 233),
  ("Eth", 240),
  ("eth", 240),
  ("Iacute", 205),
  ("onesuperior", 185),
  ("Ocircumflex", 212),
  ("Odiaeresis", 214),
  ("oacute", 243)]

def LITERALS : List (Char × String) := [
  (Char.ofNat 96, "grave"),
  ('~', "asciitilde"),
  ('!', "exclam"),
  ('@', "at"),
  ('#', "numbersign"),
  ('$', "dollar"),
  ('%', "percent"),
  ('^', "asciicircum"),
  ('&', "ampersand"),
  ('*', "asterisk"),
  ('(', "parenleft"),
  (')', "parenright"),
  ('-', "minus"),
  ('_', "underscore"),
  ('=', "equal"),
  ('+', "plus"),
  ('[', "bracketleft"),
  (']', "bracketright"),
  (Char.ofNat 123, "braceleft"),
  (Char.ofNat 125, "braceright"),
  (Char.ofNat 92, "backslash"),
  ('|', "bar"),
  (';', "semicolon"),
  (':', "colon"),
  (Char.ofNat 39, "apostrophe"),
  (Char.ofNat 34, "quotedbl"),
  (',', "comma"),
  ('<', "less"),
  ('.', "period"),
  ('>', "greater"),
  ('/', "slash"),
  ('?', "question"),
  (Char.ofNat 9, "Tab"),
  (' ', "space")]
/-- The runtime `KEYNAME_TO_KEYCODE` defaultdict: base table plus the keys
inserted at run time (each mapping to `[]`).  `keycodeIndex extra k` is the
Python indexing `KEYNAME_TO_KEYCODE[k]`: it returns the value together with
the updated inserted-key list (a missing key is inserted with `[]`). -/
def keycodeIndex (extra : List String) (k : String) : List Nat × List String :=
  match KEYNAME_TO_KEYCODE.lookup k with
  | some codes => (codes, extra)
  | none => if k ∈ extra then ([], extra) else ([], extra ++ [k])

/-- The Python membership test `k in KEYNAME_TO_KEYCODE` (no insertion). -/
def keycodeContains (extra : List String) (k : String) : Bool :=
  (KEYNAME_TO_KEYCODE.lookup k).isSome || extra.contains k

/-- Source `KeyboardEmulation._key_down`: press all key codes of `keyname`, in
table order. -/
def _key_down (extra : List String) (keyname : String) : List KeyOp × List String :=
  ((keycodeIndex extra keyname).1.map KeyOp.press, (keycodeIndex extra keyname).2)

/-- Source `KeyboardEmulation._key_up`: release all key codes of `keyname`,
backwards. -/
def _key_up (extra : List String) (keyname : String) : List KeyOp × List String :=
  ((keycodeIndex extra keyname).1.reverse.map KeyOp.release, (keycodeIndex extra keyname).2)

/-- Source `KeyboardEmulation._key_press`: press then release a key. -/
def _key_press (extra : List String) (keyname : String) : List KeyOp × List String :=
  ((_key_down extra keyname).1 ++ (_key_up (_key_down extra keyname).2 keyname).1,
   (_key_up (_key_down extra keyname).2 keyname).2)

/-- Source `KeyboardEmulation._key_unicode`: send one Unicode character. -/
def _key_unicode (code : Nat) : List KeyOp :=
  [KeyOp.unicode code]

/-- Source `KeyboardEmulation.send_backspaces`. -/
def send_backspaces (extra : List String) (number_of_backspaces : Nat) :
    List KeyOp × List String :=
  match number_of_backspaces with
  | 0 => ([], extra)
  | n + 1 =>
    let (ops, extra) := _key_press extra "BackSpace"
    let (rest, extra) := send_backspaces extra n
    (ops ++ rest, extra)

/-- Python `ord` on the one-character strings it is applied to in
`send_string` (the argument there is a single character whenever the
branch is reached, since every `LITERALS` value is a key of
`KEYNAME_TO_KEYCODE`; on a longer string `ord` would raise). -/
def pyOrd (s : String) : Nat :=
  match s.data with
  | [c] => c.toNat
  | _ => 0

/-- The normalization at the top of the loop of `send_string`: the Python
`if c in LITERALS: c = LITERALS[c]` (a membership test followed by an
index of a present key, so no insertion happens); an unmapped character
stays itself, as a one-character string. -/
def normalizeChar (c : Char) : String :=
  match LITERALS.lookup c with
  | some name => name
  | none => String.mk [c]

/-- The body of the loop of `send_string` for one full character `c`:
normalize via `LITERALS`, then press a known key or fall back to a
Unicode injection. -/
def sendChar (extra : List String) (c : Char) : List KeyOp × List String :=
  if keycodeContains extra (normalizeChar c) then
    _key_press extra (normalizeChar c)
  else
    (_key_unicode (pyOrd (normalizeChar c)), extra)

/-- Source `KeyboardEmulation.send_string`: process the string one full
character at a time. -/
def send_string (extra : List String) (s : String) : List KeyOp × List String :=
  s.data.foldl
    (fun acc c => (acc.1 ++ (sendChar acc.2 c).1, (sendChar acc.2 c).2))
    (([] : List KeyOp), extra)

/-- The loop state of `send_key_combination`: the inserted defaultdict
keys, `key_down_stack` (index 0 is the bottom; `append` pushes at the
end, `pop` removes the end) and `current_command`. -/
structure CState where
  extra : List String
  stack : List String
  current : List Char
deriving DecidableEq, Repr

/-- One iteration of the loop of `send_key_combination`: on a delimiter,
resolve the accumulated token (Unicode table first, which consumes it),
then dispatch on the delimiter; any other character is appended to
`current_command`. -/
def comboChar (st : CState) (c : Char) : CState × List KeyOp :=
  if c = ' ' ∨ c = '(' ∨ c = ')' then
    let keystring := String.mk st.current
    let uni := KEYNAME_TO_UNICODE.lookup keystring
    let uops : List KeyOp :=
      match uni with
      | some u => _key_unicode u
      | none => []
    let keystring := match uni with
      | some _ => ""
      | none => keystring
    if c = ' ' then
      if keystring ≠ "" then
        let (pops, e) := _key_press st.extra keystring
        ({ extra := e, stack := st.stack, current := [] }, uops ++ pops)
      else
        ({ st with current := [] }, uops)
    else if c = '(' then
      if keystring ≠ "" then
        let (dops, e) := _key_down st.extra keystring
        ({ extra := e, stack := st.stack ++ [keystring], current := [] }, uops ++ dops)
      else
        ({ st with stack := st.stack ++ [keystring], current := [] }, uops)
    else
      let (pops, e1) :=
        if keystring ≠ "" then _key_press st.extra keystring else ([], st.extra)
      match st.stack.getLast? with
      | some popped =>
        let (rops, e2) := _key_up e1 popped
        ({ extra := e2, stack := st.stack.dropLast, current := [] }, uops ++ pops ++ rops)
      | none =>
        ({ extra := e1, stack := st.stack, current := [] }, uops ++ pops)
  else
    ({ st with current := st.current ++ [c] }, [])

/-- Run the loop of `send_key_combination` over a list of characters,
accumulating the emitted operations in order. -/
def comboRun : CState → List Char → CState × List KeyOp
  | st, [] => (st, [])
  | st, c :: cs =>
    ((comboRun (comboChar st c).1 cs).1,
     (comboChar st c).2 ++ (comboRun (comboChar st c).1 cs).2)

/-- Source `KeyboardEmulation.send_key_combination`: run the loop, then handle
the final token (Unicode table first, otherwise an unconditional
`_key_press`, even of the empty token) and drain the remaining
`key_down_stack` by iterating it from index 0, skipping empty entries. -/
def send_key_combination (extra : List String) (combo_string : String) :
    List KeyOp × List String :=
  let run := comboRun { extra := extra, stack := [], current := [] } combo_string.data
  let keystring := String.mk run.1.current
  let fin : List KeyOp × List String :=
    match KEYNAME_TO_UNICODE.lookup keystring with
    | some u => (_key_unicode u, run.1.extra)
    | none => _key_press run.1.extra keystring
  let drain :=
    run.1.stack.foldl
      (fun acc k =>
        if k ≠ "" then (acc.1 ++ (_key_up acc.2 k).1, (_key_up acc.2 k).2) else acc)
      (([] : List KeyOp), fin.2)
  (run.2 ++ fin.1 ++ drain.1, drain.2)

/-- Source `KeyboardCapture.CONTROL_KEYS`. -/
def CONTROL_KEYS : List String := ["Lcontrol", "Rcontrol"]

/-- Source `KeyboardCapture.SHIFT_KEYS`. -/
def SHIFT_KEYS : List String := ["Lshift", "Rshift"]

/-- Source `KeyboardCapture.ALT_KEYS`. -/
def ALT_KEYS : List String := ["Lmenu", "Rmenu"]

/-- Which callback a pyHook event is dispatched to (`func_name`). -/
inductive FuncName where
  | key_down
  | key_up
deriving DecidableEq, Repr, BEq

/-- The fields of a raw pyHook keyboard event that `on_key_event` reads. -/
structure RawKeyEvent where
  ScanCode : Nat
  Injected : Bool
  Key : String
deriving DecidableEq, Repr

/-- The mutable state of a `KeyboardCapture` object. -/
structure CaptureState where
  suppressFlag : Bool
  shift : Bool
  ctrl : Bool
  alt : Bool
deriving DecidableEq, Repr

/-- Source `KeyboardCapture.suppress_keyboard`. -/
def suppress_keyboard (s : CaptureState) (suppress : Bool) : CaptureState :=
  { s with suppressFlag := suppress }

/-- Source `KeyboardCapture.is_keyboard_suppressed`. -/
def is_keyboard_suppressed (s : CaptureState) : Bool :=
  s.suppressFlag

/-- The state built by `KeyboardCapture.__init__`: `suppress_keyboard(True)`
then `shift = ctrl = alt = False`. -/
def initCaptureState : CaptureState :=
  { suppress_keyboard { suppressFlag := false, shift := false, ctrl := false, alt := false } true
      with shift := false, ctrl := false, alt := false }

/-- Source `on_key_event`, the closure in `KeyboardCapture.__init__`: returns the updated
state, the callback invocations made (each carrying the reported
character), and the boolean value the hook returns. -/
def on_key_event (func_name : FuncName) (event : RawKeyEvent) (s : CaptureState) :
    CaptureState × List (FuncName × Char) × Bool :=
  let ascii := KEY_TO_ASCII.lookup event.ScanCode
  if !event.Injected then
    let s1 := if event.Key ∈ CONTROL_KEYS then { s with ctrl := func_name == FuncName.key_down } else s
    let s2 := if event.Key ∈ SHIFT_KEYS then { s1 with shift := func_name == FuncName.key_down } else s1
    let s3 := if event.Key ∈ ALT_KEYS then { s2 with alt := func_name == FuncName.key_down } else s2
    match ascii with
    | some ch =>
      if !s3.ctrl && !s3.alt && !s3.shift then
        (s3, [(func_name, ch)], !(is_keyboard_suppressed s3))
      else
        (s3, [], true)
    | none => (s3, [], true)
  else
    (s, [], true)

/-- Turn a key-down injection into the matching key-up injection. -/
def pressToRelease : KeyOp → KeyOp
  | KeyOp.press c => KeyOp.release c
  | op => op

/-- The codes of the release operations of an operation list, in order. -/
def relCodes (l : List KeyOp) : List Nat :=
  l.filterMap (fun op =>
    match op with
    | KeyOp.release c => some c
    | _ => none)

/-- Indexing the defaultdict a second time with the same key yields the
same value and leaves the inserted-key list unchanged. -/
theorem keycodeIndex_idem (extra : List String) (k : String) :
    keycodeIndex (keycodeIndex extra k).2 k = ((keycodeIndex extra k).1, (keycodeIndex extra k).2) := by
  unfold keycodeIndex
  cases hb : KEYNAME_TO_KEYCODE.lookup k with
  | some codes => simp
  | none =>
    by_cases hm : k ∈ extra
    · simp [hm]
    · simp [hm]

/-- A key the defaultdict already contains is not (re)inserted by indexing. -/
theorem keycodeIndex_of_contains (extra : List String) (k : String)
    (h : keycodeContains extra k = true) :
    (keycodeIndex extra k).2 = extra := by
  unfold keycodeContains at h
  unfold keycodeIndex
  cases hb : KEYNAME_TO_KEYCODE.lookup k with
  | some codes => simp
  | none =>
    simp only [hb, Option.isSome_none, Bool.false_or] at h
    have hm : k ∈ extra := by simpa using h
    simp [hm]

/-- Pressing a key the defaultdict already contains leaves it unchanged. -/
theorem _key_press_extra_of_contains (extra : List String) (k : String)
    (h : keycodeContains extra k = true) :
    (_key_press extra k).2 = extra := by
  unfold _key_press _key_down _key_up
  simp [keycodeIndex_idem, keycodeIndex_of_contains extra k h]

/-- Processing one character in `send_string` never inserts a key into the
defaultdict: the membership test guards the press. -/
theorem sendChar_extra (extra : List String) (c : Char) :
    (sendChar extra c).2 = extra := by
  unfold sendChar
  by_cases h : keycodeContains extra (normalizeChar c) = true
  · simp [h, _key_press_extra_of_contains extra (normalizeChar c) h]
  · simp [h]

/-- Unfolded shape of the fold inside `send_string`: the emitted operations
are the per-character operations joined in order, and the inserted-key
list never changes. -/
theorem send_string_foldl (extra : List String) (l : List Char) (ops : List KeyOp) :
    l.foldl
      (fun acc c => (acc.1 ++ (sendChar acc.2 c).1, (sendChar acc.2 c).2))
      (ops, extra)
    = (ops ++ (l.map (fun c => (sendChar extra c).1)).flatten, extra) := by
  induction l generalizing ops with
  | nil => simp
  | cons c cs ih =>
    rw [List.foldl_cons]
    show List.foldl _ (ops ++ (sendChar extra c).1, (sendChar extra c).2) cs = _
    rw [sendChar_extra extra c, ih]
    simp

/-- Rebuilding a string from its character list gives the string back. -/
theorem string_mk_data (s : String) : String.mk s.data = s := by
  cases s
  rfl

/-- Running the combination loop over an appended character list runs the
two halves in sequence and concatenates the emitted operations. -/
theorem comboRun_append (st : CState) (a b : List Char) :
    comboRun st (a ++ b)
      = ((comboRun (comboRun st a).1 b).1,
         (comboRun st a).2 ++ (comboRun (comboRun st a).1 b).2) := by
  induction a generalizing st with
  | nil => simp [comboRun]
  | cons c cs ih =>
    simp only [List.cons_append, comboRun, List.append_eq]
    rw [ih]
    simp [List.append_assoc]

/-- A character that is not a delimiter is only appended to
`current_command` and emits nothing. -/
theorem comboChar_nondelim (st : CState) (c : Char)
    (h1 : c ≠ ' ') (h2 : c ≠ '(') (h3 : c ≠ ')') :
    comboChar st c = ({ st with current := st.current ++ [c] }, []) := by
  unfold comboChar
  rw [if_neg]
  simp [h1, h2, h3]

/-- Running the loop over delimiter-free characters only accumulates them
into `current_command`. -/
theorem comboRun_nondelims (st : CState) (l : List Char)
    (h : ∀ c ∈ l, c ≠ ' ' ∧ c ≠ '(' ∧ c ≠ ')') :
    comboRun st l = ({ st with current := st.current ++ l }, []) := by
  induction l generalizing st with
  | nil => simp [comboRun]
  | cons c cs ih =>
    have hc := h c (List.mem_cons_self c cs)
    simp only [comboRun, comboChar_nondelim st c hc.1 hc.2.1 hc.2.2]
    rw [ih _ (fun x hx => h x (List.mem_cons_of_mem c hx))]
    simp

/-- Core behaviour of the hook on a plain printable key: a non-injected,
non-modifier event whose scan code is in `KEY_TO_ASCII`, processed with
all modifier flags clear, invokes exactly the one requested callback with
the mapped character and returns the negated suppression flag. -/
theorem on_key_event_plain (fn : FuncName) (ev : RawKeyEvent) (s : CaptureState) (ch : Char)
    (hinj : ev.Injected = false)
    (hascii : KEY_TO_ASCII.lookup ev.ScanCode = some ch)
    (hc : ev.Key ∉ CONTROL_KEYS) (hs : ev.Key ∉ SHIFT_KEYS) (ha : ev.Key ∉ ALT_KEYS)
    (hctrl : s.ctrl = false) (hshift : s.shift = false) (halt : s.alt = false) :
    on_key_event fn ev s = (s, [(fn, ch)], !(is_keyboard_suppressed s)) := by
  unfold on_key_event
  simp [hinj, hascii, hc, hs, ha, hctrl, hshift, halt]

/-- C1: a non-synthetic key event whose scan code maps to a printable
ASCII character, for a non-modifier key processed while none of
ctrl/shift/alt is held, makes the hook invoke exactly the one callback
named by `func_name`, carrying that character, and return the negation of
the suppression flag; the state is unchanged, so a key-down followed by
the matching key-up yields one `key_down` and one `key_up` with the same
character. -/
theorem capture_plain_printable_forwards (fn : FuncName) (ev : RawKeyEvent)
    (s : CaptureState) (ch : Char)
    (hinj : ev.Injected = false)
    (hascii : KEY_TO_ASCII.lookup ev.ScanCode = some ch)
    (hkey : ev.Key ∉ CONTROL_KEYS ∧ ev.Key ∉ SHIFT_KEYS ∧ ev.Key ∉ ALT_KEYS)
    (hmods : s.ctrl = false ∧ s.shift = false ∧ s.alt = false) :
    on_key_event fn ev s = (s, [(fn, ch)], !(is_keyboard_suppressed s)) :=
  on_key_event_plain fn ev s ch hinj hascii hkey.1 hkey.2.1 hkey.2.2
    hmods.1 hmods.2.1 hmods.2.2

/-- Witness for C1 at scan code 30 (the `a` key) in the initial state. -/
theorem capture_plain_printable_forwards_witness :
    on_key_event FuncName.key_down
        ⟨30, false, "a"⟩ initCaptureState
      = (initCaptureState, [(FuncName.key_down, 'a')], false) := by
  have h := capture_plain_printable_forwards FuncName.key_down
      ⟨30, false, "a"⟩ initCaptureState 'a'
      rfl rfl ⟨by decide, by decide, by decide⟩ ⟨rfl, rfl, rfl⟩
  simpa [is_keyboard_suppressed, initCaptureState, suppress_keyboard] using h

/-- C2 counterexample: for the combination `"Alt_L(Shift_L(x"` the two
trailing releases emitted by the drain are Alt_L (`0x12`) and then
Shift_L (`0xA0`): the first-pushed held key is released first, not the
most-recently-opened one as the claim states. -/
theorem combo_drain_order_counterexample :
    ((send_key_combination [] "Alt_L(Shift_L(x").1).drop 4
        = [KeyOp.release 0x12, KeyOp.release 0xA0] ∧
    ((send_key_combination [] "Alt_L(Shift_L(x").1).drop 4
        ≠ [KeyOp.release 0xA0, KeyOp.release 0x12] := by
  refine ⟨rfl, by decide⟩

/-- The list of codes the defaultdict yields for a key does not depend on
the runtime-inserted keys: the base-table codes when the key is a base
key, the empty list otherwise. -/
theorem keycodeIndex_fst (extra : List String) (k : String) :
    (keycodeIndex extra k).1 = (KEYNAME_TO_KEYCODE.lookup k).getD [] := by
  unfold keycodeIndex
  cases hb : KEYNAME_TO_KEYCODE.lookup k with
  | some codes => rfl
  | none =>
    by_cases hm : k ∈ extra
    · simp [hm]
    · simp [hm]

/-- The drain loop at the end of `send_key_combination` emits, for each
stack entry in list (push) order, skipping empty entries, the releases
of that entry in reverse table order — independently of the starting
operation list and of the inserted-key threading. -/
theorem combo_drain_foldl (stack : List String) (ops : List KeyOp) (e : List String) :
    (stack.foldl
        (fun acc k =>
          if k ≠ "" then (acc.1 ++ (_key_up acc.2 k).1, (_key_up acc.2 k).2) else acc)
        ((ops : List KeyOp), e)).1
      = ops ++ stack.flatMap
          (fun k =>
            if k = "" then []
            else ((KEYNAME_TO_KEYCODE.lookup k).getD []).reverse.map KeyOp.release) := by
  induction stack generalizing ops e with
  | nil => simp
  | cons k ks ih =>
    rw [List.foldl_cons, List.flatMap_cons]
    by_cases hk : k = ""
    · subst hk
      simp only [ne_eq, not_true_eq_false, if_false, ite_true, if_pos rfl]
      rw [ih]
      simp
    · rw [if_pos hk, if_neg hk, ih]
      unfold _key_up
      rw [keycodeIndex_fst]
      simp [List.append_assoc]

/-- C2 amended: for every combination expression, the emitted operations
are the scan operations, then the final-token operations, then — for
each entry remaining on the hold stack, taken in push order (index 0,
the first-pushed, first) and skipping empty entries — the releases of
that entry; for `"Alt_L(Shift_L(x"` the remaining stack is
`["Alt_L", "Shift_L"]` and the injected sequence ends with release
Alt_L (`0x12`) and then release Shift_L (`0xA0`). -/
theorem combo_drain_release_push_order :
    (∀ (extra : List String) (combo : String),
        (send_key_combination extra combo).1
          = (comboRun ⟨extra, [], []⟩ combo.data).2
            ++ (match KEYNAME_TO_UNICODE.lookup
                  (String.mk (comboRun ⟨extra, [], []⟩ combo.data).1.current) with
                | some u => _key_unicode u
                | none =>
                  (_key_press (comboRun ⟨extra, [], []⟩ combo.data).1.extra
                    (String.mk (comboRun ⟨extra, [], []⟩ combo.data).1.current)).1)
            ++ ((comboRun ⟨extra, [], []⟩ combo.data).1.stack).flatMap
                (fun k =>
                  if k = "" then []
                  else ((KEYNAME_TO_KEYCODE.lookup k).getD []).reverse.map KeyOp.release)) ∧
    (comboRun (⟨[], [], []⟩ : CState) "Alt_L(Shift_L(x".data).1.stack
        = ["Alt_L", "Shift_L"] ∧
    (send_key_combination [] "Alt_L(Shift_L(x").1
      = [KeyOp.press 0x12, KeyOp.press 0xA0, KeyOp.press 0x58, KeyOp.release 0x58,
         KeyOp.release 0x12, KeyOp.release 0xA0] := by
  refine ⟨?_, rfl, rfl⟩
  intro extra combo
  simp only [send_key_combination]
  rw [combo_drain_foldl]
  cases hlook : KEYNAME_TO_UNICODE.lookup
      (String.mk (comboRun ⟨extra, [], []⟩ combo.data).1.current) with
  | some u => simp [hlook]
  | none => simp [hlook]

/-- C3 counterexample: a fresh `send_string` of the character U+00E9
injects it as Unicode, but `send_key_combination` on the unknown token
U+00E9 indexes the defaultdict and thereby inserts that name with an
empty code list, after which the same `send_string` call emits nothing:
the behaviour of a later call depends on which earlier calls were made. -/
theorem keycode_table_runtime_insertion_counterexample :
    (send_string [] (String.mk [Char.ofNat 233])).1 = [KeyOp.unicode 233] ∧
    (send_key_combination [] (String.mk [Char.ofNat 233])).1 = [] ∧
    (send_key_combination [] (String.mk [Char.ofNat 233])).2
        = [String.mk [Char.ofNat 233]] ∧
    (send_string (send_key_combination [] (String.mk [Char.ofNat 233])).2
        (String.mk [Char.ofNat 233])).1 = [] ∧
    (send_string [] (String.mk [Char.ofNat 233])).1
      ≠ (send_string (send_key_combination [] (String.mk [Char.ofNat 233])).2
          (String.mk [Char.ofNat 233])).1 := by
  refine ⟨rfl, rfl, rfl, rfl, by decide⟩

/-- C3 amended: the base tables are constants and `send_string` never
inserts a key (its dictionary index is guarded by a membership test), but
`send_key_combination` pressing an unknown token inserts that token into
the `KEYNAME_TO_KEYCODE` defaultdict with an empty code list, and a later
`send_string` of that character then presses nothing instead of
injecting Unicode. -/
theorem keycode_table_insertion_behavior :
    (∀ (extra : List String) (s : String), (send_string extra s).2 = extra) ∧
    (send_key_combination [] (String.mk [Char.ofNat 233])).2
        = [String.mk [Char.ofNat 233]] ∧
    (send_string [String.mk [Char.ofNat 233]] (String.mk [Char.ofNat 233])).1
        = [] := by
  refine ⟨?_, rfl, rfl⟩
  intro extra s
  unfold send_string
  rw [send_string_foldl]

/-- C4 counterexample: `ampersand` is not in the Unicode-codepoint table
(it is a key-code-table name), so in `"Shift_L(ampersand(a))"` it is held
rather than consumed: the two closing parentheses release different keys
than in `"Shift_L((a))"`, where the token never appears. -/
theorem unicode_token_hold_counterexample :
    KEYNAME_TO_UNICODE.lookup "ampersand" = none ∧
    (send_key_combination [] "Shift_L(ampersand(a))").1
        = [KeyOp.press 0xA0, KeyOp.press 0xA1, KeyOp.press 0x37, KeyOp.press 0x41,
           KeyOp.release 0x41, KeyOp.release 0x37, KeyOp.release 0xA1, KeyOp.release 0xA0] ∧
    (send_key_combination [] "Shift_L((a))").1
        = [KeyOp.press 0xA0, KeyOp.press 0x41, KeyOp.release 0x41, KeyOp.release 0xA0] ∧
    relCodes (send_key_combination [] "Shift_L(ampersand(a))").1
      ≠ relCodes (send_key_combination [] "Shift_L((a))").1 := by
  refine ⟨rfl, rfl, rfl, by decide⟩

/-- Opening a parenthesis right after an accumulated token that is in the
Unicode table: the token is injected as Unicode and consumed; nothing is
pressed, and only the empty string is pushed onto the hold stack. -/
theorem comboChar_unicode_token_paren (e stack : List String) (tok : String) (u : Nat)
    (hu : KEYNAME_TO_UNICODE.lookup tok = some u) :
    comboChar ⟨e, stack, tok.data⟩ '('
      = (⟨e, stack ++ [""], []⟩, [KeyOp.unicode u]) := by
  unfold comboChar
  simp [string_mk_data, hu, _key_unicode]

/-- Opening a parenthesis with no accumulated token pushes the empty
string onto the hold stack and emits nothing. -/
theorem comboChar_empty_paren (e stack : List String) :
    comboChar ⟨e, stack, []⟩ '(' = (⟨e, stack ++ [""], []⟩, []) := by
  unfold comboChar
  simp [show KEYNAME_TO_UNICODE.lookup (String.mk []) = none from rfl]

/-- C4 amended: a token that is in the Unicode-codepoint table and is
immediately followed by an open parenthesis is emitted as a single
Unicode injection and contributes nothing further: the loop state
(inserted keys, hold stack, accumulated token) afterwards is exactly the
state of the same input with the token deleted, and the emitted
operations differ only by the one inserted `unicode` injection — so the
later close parentheses release the same keys.  (The claim
illustrates this with `ampersand`, which is not in the Unicode table;
`aring` is.) -/
theorem unicode_token_consumed :
    (∀ (e stack : List String) (tok : String) (u : Nat) (rest : List Char),
        KEYNAME_TO_UNICODE.lookup tok = some u →
        (∀ c ∈ tok.data, c ≠ ' ' ∧ c ≠ '(' ∧ c ≠ ')') →
        comboRun ⟨e, stack, []⟩ (tok.data ++ '(' :: rest)
          = ((comboRun ⟨e, stack, []⟩ ('(' :: rest)).1,
             KeyOp.unicode u :: (comboRun ⟨e, stack, []⟩ ('(' :: rest)).2)) ∧
    (send_key_combination [] "Shift_L(aring(a))").1
        = [KeyOp.press 0xA0, KeyOp.unicode 229, KeyOp.press 0x41,
           KeyOp.release 0x41, KeyOp.release 0xA0] ∧
    (send_key_combination [] "Shift_L((a))").1
        = [KeyOp.press 0xA0, KeyOp.press 0x41, KeyOp.release 0x41, KeyOp.release 0xA0] := by
  refine ⟨?_, rfl, rfl⟩
  intro e stack tok u rest hu hnd
  rw [comboRun_append]
  have h1 : comboRun ⟨e, stack, []⟩ tok.data = (⟨e, stack, tok.data⟩, []) := by
    have h := comboRun_nondelims ⟨e, stack, []⟩ tok.data hnd
    simpa using h
  rw [h1]
  simp only [comboRun, comboChar_unicode_token_paren e stack tok u hu, comboChar_empty_paren]
  simp

/-- Witness for C4 (amended) at `"aring"` (code point 229) with
`Shift_L` already held. -/
theorem unicode_token_consumed_witness :
    comboRun ⟨[], ["Shift_L"], []⟩ ("aring".data ++ '(' :: "a))".data)
      = ((comboRun ⟨[], ["Shift_L"], []⟩ ('(' :: "a))".data)).1,
         KeyOp.unicode 229 :: (comboRun ⟨[], ["Shift_L"], []⟩ ('(' :: "a))".data)).2) :=
  unicode_token_consumed.1 [] ["Shift_L"] "aring" 229 "a))".data rfl (by decide)

/-- C5: an injected (synthetic) event is never forwarded to any callback
and the hook returns `true`, regardless of the modifier and suppression
state; the state is also untouched. -/
theorem capture_injected_passthrough (fn : FuncName) (ev : RawKeyEvent)
    (s : CaptureState) (h : ev.Injected = true) :
    on_key_event fn ev s = (s, [], true) := by
  unfold on_key_event
  simp [h]

/-- Witness for C5 at scan code 30 in the initial state. -/
theorem capture_injected_passthrough_witness :
    on_key_event FuncName.key_up ⟨30, true, "a"⟩ initCaptureState
      = (initCaptureState, [], true) :=
  capture_injected_passthrough FuncName.key_up ⟨30, true, "a"⟩ initCaptureState rfl

/-- C6: `send_key_combination "Alt_L(Tab)"` produces, at the injection
level, exactly press Alt_L (`0x12`), press Tab (`0x09`), release Tab,
release Alt_L: the hold opened by the token before the parenthesis
brackets the inner press and is closed by the matching parenthesis. -/
theorem combo_alt_tab_ops :
    (send_key_combination [] "Alt_L(Tab)").1
      = [KeyOp.press 0x12, KeyOp.press 0x09, KeyOp.release 0x09, KeyOp.release 0x12] := rfl

/-- C7: for every key name, the release sequence of a press-and-release
is exactly the reversal of its press sequence; in particular a two-code
entry `[x, y]` yields press `x`, press `y`, release `y`, release `x`. -/
theorem key_release_reverses_press (extra : List String) (keyname : String) :
    (_key_up ((_key_down extra keyname).2) keyname).1
        = (((_key_down extra keyname).1).reverse).map pressToRelease ∧
    ∀ x y, (keycodeIndex extra keyname).1 = [x, y] →
      (_key_press extra keyname).1
        = [KeyOp.press x, KeyOp.press y, KeyOp.release y, KeyOp.release x] := by
  constructor
  · unfold _key_up _key_down
    simp only [keycodeIndex_idem]
    simp [List.map_reverse, List.map_map, Function.comp_def, pressToRelease]
  · intro x y hxy
    unfold _key_press _key_down _key_up
    simp only [keycodeIndex_idem]
    simp [hxy]

/-- Witness for C7: the two-code entry for `"A"` (`[0xA1, 0x41]`). -/
theorem key_release_reverses_press_witness :
    (_key_press [] "A").1
      = [KeyOp.press 0xA1, KeyOp.press 0x41, KeyOp.release 0x41, KeyOp.release 0xA1] :=
  (key_release_reverses_press [] "A").2 0xA1 0x41 rfl

/-- C8: `send_key_combination "a)"` emits exactly one press-and-release
of `a` (`0x41`) and nothing else: the close parenthesis on an empty hold
stack is a no-op, and the total function raises no error. -/
theorem combo_unmatched_close_tolerated :
    (send_key_combination [] "a)").1 = [KeyOp.press 0x41, KeyOp.release 0x41] := rfl

/-- C9: `send_string` processes its input one full character at a time —
the emitted operations are the concatenation, in order, of each
character processing (literal normalization, then key press if known,
otherwise Unicode injection) — and `send_string "ab"` produces two
complete, non-overlapping press/release cycles. -/
theorem send_string_per_character :
    (∀ (extra : List String) (s : String),
        (send_string extra s).1
          = (s.data.map (fun c => (sendChar extra c).1)).flatten) ∧
    (send_string [] "ab").1
        = [KeyOp.press 0x41, KeyOp.release 0x41, KeyOp.press 0x42, KeyOp.release 0x42] := by
  constructor
  · intro extra s
    unfold send_string
    rw [send_string_foldl]
    simp
  · rfl

/-- C10: immediately after construction (before any `suppress_keyboard`
call) suppression is enabled, so the hook swallows a forwarded plain
printable keystroke: it returns `false` for it. -/
theorem initial_suppression_default (fn : FuncName) (ev : RawKeyEvent) (ch : Char)
    (hinj : ev.Injected = false)
    (hascii : KEY_TO_ASCII.lookup ev.ScanCode = some ch)
    (hkey : ev.Key ∉ CONTROL_KEYS ∧ ev.Key ∉ SHIFT_KEYS ∧ ev.Key ∉ ALT_KEYS) :
    is_keyboard_suppressed initCaptureState = true ∧
    on_key_event fn ev initCaptureState = (initCaptureState, [(fn, ch)], false) := by
  refine ⟨rfl, ?_⟩
  have h := on_key_event_plain fn ev initCaptureState ch hinj hascii
      hkey.1 hkey.2.1 hkey.2.2 rfl rfl rfl
  simpa [is_keyboard_suppressed, initCaptureState, suppress_keyboard] using h

/-- Witness for C10 at scan code 31 (the `s` key). -/
theorem initial_suppression_default_witness :
    is_keyboard_suppressed initCaptureState = true ∧
    on_key_event FuncName.key_down ⟨31, false, "s"⟩ initCaptureState
      = (initCaptureState, [(FuncName.key_down, 's')], false) :=
  initial_suppression_default FuncName.key_down ⟨31, false, "s"⟩ 's'
    rfl rfl ⟨by decide, by decide, by decide⟩

end WinKeyboardControl
